import Mathlib

/-!
Verification of the training-services todo-list backend.

This file gives a shallow embedding of the data model and of the route
handlers of the repository (Elysia/Hono todo, user/auth, category service)
and proves the behavioural properties stated in the specification.

The persistence layer is modelled as explicit in-memory lists of rows; the
ORM primitives used by the handlers (findUnique, findMany, findFirst,
create, update, delete) become pure list operations.  External primitives
(JWT sign/verify, password hashing, date formatting) are parameters of the
embedded handlers, matching the specification's treatment of them as black
boxes.
-/

namespace TrainingServices

/-- A stored Todo row, after prisma/schema.prisma model `Todo`:
id (cuid string), title, completed (default false), categoryId (Int FK),
userId (nullable String FK), createdAt/updatedAt timestamps
(modelled as abstract Nat instants). -/
structure Todo where
  id : String
  title : String
  completed : Bool
  categoryId : Int
  userId : Option String
  createdAt : Nat
  updatedAt : Nat
deriving Repr, DecidableEq

/-- A stored Category row, after prisma/schema.prisma model `Category`. -/
structure Category where
  id : Int
  name : String
deriving Repr, DecidableEq

/-- A stored User row, after prisma/schema.prisma model `User`
(`password` holds the stored hash). -/
structure User where
  id : String
  email : String
  password : String
deriving Repr, DecidableEq

/-- A stored Post row, after prisma/schema.prisma model `Post`
(fields used by the user-profile handlers). -/
structure Post where
  id : String
  title : String
  content : String
  published : Bool
  authorId : String
deriving Repr, DecidableEq

/-- The JSON shape of a todo in responses of the todo router: dates are
formatted strings and `userId` is a (non-nullable) string. -/
structure TodoResponse where
  id : String
  title : String
  completed : Bool
  categoryId : Int
  userId : String
  createdAt : String
  updatedAt : String
deriving Repr, DecidableEq

/-- An error response: HTTP status plus message, as produced by
`set.status = s; throw new Error(msg)` or `c.json(\x7bmessage\x7d, s)`. -/
structure ErrorResponse where
  status : Nat
  message : String
deriving Repr, DecidableEq

/-- The response mapping shared by the todo handlers:
`\x7b ...todo, userId: todo.userId ?? '', createdAt: formatDate(...),
updatedAt: formatDate(...) \x7d`.  `fmt` stands for the `formatDate`
helper (dayjs, external). -/
def serializeTodo (fmt : Nat → String) (todo : Todo) : TodoResponse :=
  { id := todo.id
    title := todo.title
    completed := todo.completed
    categoryId := todo.categoryId
    userId := todo.userId.getD ""
    createdAt := fmt todo.createdAt
    updatedAt := fmt todo.updatedAt }

/-- `prisma.todo.findUnique(\x7b where: \x7b id \x7d \x7d)` over the
in-memory table. -/
def findUniqueTodo (todos : List Todo) (id : String) : Option Todo :=
  todos.find? (fun t => decide (t.id = id))

/-- The effective `categoryId` condition of `GET /api/todos`:
`categoryId ? categoryId : undefined` — a JavaScript truthiness test, so a
supplied value of `0` behaves like an absent parameter. -/
def effectiveCategoryFilter (categoryId : Option Int) : Option Int :=
  match categoryId with
  | none => none
  | some c => if c = 0 then none else some c

/-- Handler of `GET /api/todos` (todo router): `findMany` filtered by the
caller's id and the optional `categoryId` query parameter, then the shared
response mapping. -/
def listTodos (todos : List Todo) (callerId : String) (categoryId : Option Int)
    (fmt : Nat → String) : List TodoResponse :=
  (todos.filter (fun t =>
    decide (t.userId = some callerId) &&
    match effectiveCategoryFilter categoryId with
    | none => true
    | some c => decide (t.categoryId = c))).map (serializeTodo fmt)

/-- Handler of `GET /api/todos/:id`: 404 when absent, 403 when the loaded
todo's `userId` differs from the caller's id, otherwise the serialized
todo. -/
def getTodoById (todos : List Todo) (callerId paramsId : String)
    (fmt : Nat → String) : Except ErrorResponse TodoResponse :=
  match findUniqueTodo todos paramsId with
  | none => .error ⟨404, "Todo not found"⟩
  | some todo =>
    if todo.userId ≠ some callerId then .error ⟨403, "Access denied"⟩
    else .ok (serializeTodo fmt todo)

/-- The validated body of `POST /api/todos`
(`title` required, `completed` and `categoryId` optional).
`clientUserId` stands for any `userId` key a client may put in the raw
JSON: the handler never reads it. -/
structure CreateTodoBody where
  title : String
  completed : Option Bool := none
  categoryId : Option Int := none
  clientUserId : Option String := none
deriving Repr, DecidableEq

/-- The `categoryId` selection of `POST /api/todos`: when
`body.categoryId` is JS-falsy (absent, or `0`) fall back to
`prisma.category.findFirst()` — the head of the table — yielding `none`
when there is no category at all. -/
def chosenCategoryId (categories : List Category) (bodyCategoryId : Option Int) :
    Option Int :=
  match bodyCategoryId with
  | some c => if c = 0 then (categories.head?).map (fun cat => cat.id) else some c
  | none => (categories.head?).map (fun cat => cat.id)

/-- Handler of `POST /api/todos`: 400 when no category can be chosen;
otherwise create the row with `completed` defaulting to `false` via `??`
and `userId` set to the authenticated caller's id.  Returns the new
table, the created row and the serialized response. -/
def createTodo (todos : List Todo) (categories : List Category)
    (callerId : String) (body : CreateTodoBody) (newId : String) (now : Nat)
    (fmt : Nat → String) :
    Except ErrorResponse (List Todo × Todo × TodoResponse) :=
  match chosenCategoryId categories body.categoryId with
  | none => .error ⟨400, "No categories available. Please create a category first."⟩
  | some cid =>
    let todo : Todo :=
      { id := newId
        title := body.title
        completed := body.completed.getD false
        categoryId := cid
        userId := some callerId
        createdAt := now
        updatedAt := now }
    .ok (todos ++ [todo], todo, serializeTodo fmt todo)

/-- The validated body of `PUT /api/todos/:id`: a partial patch of
title/completed/categoryId. -/
structure TodoPatch where
  title : Option String := none
  completed : Option Bool := none
  categoryId : Option Int := none
deriving Repr, DecidableEq

/-- `prisma.todo.update(\x7b where: \x7b id \x7d, data: body \x7d)` applied
to one row: absent patch fields are skipped and `@updatedAt` refreshes the
`updatedAt` timestamp. -/
def applyPatch (now : Nat) (patch : TodoPatch) (todo : Todo) : Todo :=
  { todo with
    title := patch.title.getD todo.title
    completed := patch.completed.getD todo.completed
    categoryId := patch.categoryId.getD todo.categoryId
    updatedAt := now }

/-- Handler of `PUT /api/todos/:id`: load existing (404 when absent),
ownership check (403), then update and serialize. -/
def updateTodo (todos : List Todo) (callerId paramsId : String)
    (patch : TodoPatch) (now : Nat) (fmt : Nat → String) :
    Except ErrorResponse (List Todo × TodoResponse) :=
  match findUniqueTodo todos paramsId with
  | none => .error ⟨404, "Todo not found"⟩
  | some existingTodo =>
    if existingTodo.userId ≠ some callerId then .error ⟨403, "Access denied"⟩
    else
      let updated := applyPatch now patch existingTodo
      .ok ((todos.map (fun t => if t.id = paramsId then updated else t)),
        serializeTodo fmt updated)

/-- The success body of `DELETE /api/todos/:id`. -/
structure DeleteResponse where
  message : String
  id : String
deriving Repr, DecidableEq

/-- Handler of `DELETE /api/todos/:id`: load existing (404 when absent),
ownership check (403), then `prisma.todo.delete` and a confirmation
message carrying the deleted id. -/
def deleteTodo (todos : List Todo) (callerId paramsId : String) :
    Except ErrorResponse (List Todo × DeleteResponse) :=
  match findUniqueTodo todos paramsId with
  | none => .error ⟨404, "Todo not found"⟩
  | some existingTodo =>
    if existingTodo.userId ≠ some callerId then .error ⟨403, "Access denied"⟩
    else
      .ok (todos.filter (fun t => !(decide (t.id = paramsId))),
        ⟨"Todo deleted successfully", paramsId⟩)

/-! Auth middleware (lib/auth `authMiddleware`, identical logic in the
todo router's `resolve` block). -/

/-- A JSON value as far as the auth payload check needs it: the
`typeof payload.id !== 'string'` test only distinguishes strings from
everything else. -/
inductive JVal where
  | str (s : String)
  | other
deriving Repr, DecidableEq

/-- A decoded JWT payload: the `id` field may be absent or any JSON
value. -/
structure JwtPayload where
  id : Option JVal
deriving Repr, DecidableEq

/-- Outcome of the required auth middleware: a 401 rejection with a
message, or the verified user id injected into the request context. -/
inductive AuthResult where
  | unauthorized (message : String)
  | ok (userId : String)
deriving Repr, DecidableEq

/-- `s.startsWith(pre)` over the character lists of the strings. -/
def strStartsWith (s pre : String) : Bool :=
  pre.data.isPrefixOf s.data

/-- Credential extraction: `Authorization: Bearer <token>` header first
(`authHeader?.startsWith('Bearer ')`, token is `substring(7)`), otherwise
the cookie named `token`. -/
def extractToken (authHeader cookieToken : Option String) : Option String :=
  match authHeader with
  | some h => if strStartsWith h "Bearer " then some (h.drop 7) else cookieToken
  | none => cookieToken

/-- JS truthiness of the extracted token: `!token` is true when the token
is absent or the empty string. -/
def tokenFalsy : Option String → Bool
  | none => true
  | some s => s.isEmpty

/-- The required auth middleware.  `verify` stands for the JWT
verification primitive: `.error` covers a malformed, expired or
wrongly-signed token (the library throws / returns a falsy value), `.ok`
yields the decoded payload, whose `id` must be a string. -/
def authMiddleware (verify : String → Except Unit JwtPayload)
    (authHeader cookieToken : Option String) : AuthResult :=
  let token := extractToken authHeader cookieToken
  if tokenFalsy token then .unauthorized "Authentication required"
  else
    match token with
    | none => .unauthorized "Authentication required"
    | some tok =>
      match verify tok with
      | .error _ => .unauthorized "Invalid or expired token"
      | .ok payload =>
        match payload.id with
        | some (JVal.str s) => .ok s
        | _ => .unauthorized "Invalid or expired token"

/-! Login handler (`POST /api/auth/login`, Hono revision; the Elysia
revision at todo router lines 297-335 behaves identically up to the
sameSite capitalisation accepted by both frameworks). -/

/-- The cookie set on successful login. -/
structure CookieSettings where
  name : String
  value : String
  httpOnly : Bool
  maxAge : Nat
  path : String
  sameSite : String
deriving Repr, DecidableEq

/-- The success payload of login: message/status envelope, the data object
`\x7b token, userId, email \x7d`, and the Set-Cookie settings. -/
structure LoginSuccess where
  message : String
  status : String
  token : String
  userId : String
  email : String
  cookie : CookieSettings
deriving Repr, DecidableEq

/-- `prisma.user.findUnique(\x7b where: \x7b email \x7d \x7d)` over the
in-memory table (email is a unique index). -/
def findUserByEmail (users : List User) (email : String) : Option User :=
  users.find? (fun u => decide (u.email = email))

/-- Login handler: 400 "User not found" when no account has the email,
400 "Invalid password" when `Bun.password.verify` (the `pverify`
parameter) rejects, otherwise a token signed over the user id (the `sign`
parameter models `signToken`, which signs `\x7b id: userId \x7d`), an
HttpOnly SameSite=Lax cookie with 7-day max age on path `/`, and the
`\x7b token, userId, email \x7d` data. -/
def login (users : List User) (pverify : String → String → Bool)
    (sign : String → String) (email password : String) :
    Except ErrorResponse LoginSuccess :=
  match findUserByEmail users email with
  | none => .error ⟨400, "User not found"⟩
  | some user =>
    if !(pverify password user.password) then .error ⟨400, "Invalid password"⟩
    else
      let token := sign user.id
      .ok
        { message := "Login successful"
          status := "success"
          token := token
          userId := user.id
          email := user.email
          cookie :=
            { name := "token"
              value := token
              httpOnly := true
              maxAge := 7 * 24 * 60 * 60
              path := "/"
              sameSite := "Lax" } }

/-! Error taxonomy (lib/errors) and signup flow (lib `prisma.user.signUp`
extension plus the `POST /api/auth/signup` handler of the user router). -/

/-- The `details` payload carried by application errors: the
"already exists" error carries `\x7b email \x7d`; invalid-user-data
carries per-field messages; the generic wrappers carry the original
message. -/
inductive ErrDetails where
  | emailDetail (email : String)
  | fieldMessages (emailMsg passwordMsg : Option String)
  | originalError (msg : String)
deriving Repr, DecidableEq

/-- The concrete class of a thrown application error, standing for the
`instanceof` checks over the AppError / UserError hierarchy. -/
inductive ErrClass where
  | userAlreadyExists
  | invalidUserData
  | appErrorBase
deriving Repr, DecidableEq

/-- An AppError value: message, machine code, HTTP status, details, and
the concrete class for `instanceof` dispatch.  `UserError` subclasses fix
the status to 400. -/
structure AppError where
  cls : ErrClass
  message : String
  code : String
  status : Nat
  details : ErrDetails
deriving Repr, DecidableEq

/-- `new UserAlreadyExistsError(email)`: message
"User with this email already exists", code USER_ALREADY_EXISTS,
status 400 (via UserError), details `\x7b email \x7d`. -/
def UserAlreadyExistsError (email : String) : AppError :=
  { cls := .userAlreadyExists
    message := "User with this email already exists"
    code := "USER_ALREADY_EXISTS"
    status := 400
    details := .emailDetail email }

/-- `new InvalidUserDataError(details)`: message
"Invalid user data provided", code INVALID_USER_DATA, status 400. -/
def InvalidUserDataError (details : ErrDetails) : AppError :=
  { cls := .invalidUserData
    message := "Invalid user data provided"
    code := "INVALID_USER_DATA"
    status := 400
    details := details }

/-- `e instanceof UserError` over the modelled hierarchy. -/
def AppError.isUserError (e : AppError) : Bool :=
  match e.cls with
  | .userAlreadyExists => true
  | .invalidUserData => true
  | .appErrorBase => false

/-- A known persistence-layer error: `PrismaClientKnownRequestError`
carrying its machine code (`P2002` = unique-constraint violation). -/
inductive PrismaError where
  | knownRequest (code : String)
deriving Repr, DecidableEq

/-- `prisma.user.create` over the in-memory table: the unique index on
email raises P2002 when a row with the email already exists. -/
def prismaUserCreate (users : List User) (email hashedPassword newId : String) :
    Except PrismaError (List User × User) :=
  if users.any (fun u => decide (u.email = email)) then
    .error (.knownRequest "P2002")
  else
    let u : User := ⟨newId, email, hashedPassword⟩
    .ok (users ++ [u], u)

/-- `email.includes('@')` for the single-character needle, over the
character list of the string. -/
def strContains (s : String) (c : Char) : Bool :=
  s.data.contains c

/-- `prisma.user.signUp(email, password)` (lib client extension):
validate presence and a rudimentary email shape, hash the password (the
`hash` parameter models `Bun.password.hash`), create the row, and
translate a P2002 unique-constraint violation into
`UserAlreadyExistsError`; any other known persistence error becomes the
generic 500 "Database operation failed" wrapper. -/
def signUp (hash : String → String) (users : List User)
    (email password newId : String) : Except AppError (List User × User) :=
  if email = "" ∨ password = "" then
    .error (InvalidUserDataError (.fieldMessages
      (if email = "" then some "Email is required" else none)
      (if password = "" then some "Password is required" else none)))
  else if !(strContains email '@') then
    .error (InvalidUserDataError (.fieldMessages (some "Invalid email") none))
  else
    match prismaUserCreate users email (hash password) newId with
    | .ok r => .ok r
    | .error (.knownRequest c) =>
      if c = "P2002" then .error (UserAlreadyExistsError email)
      else .error
        { cls := .appErrorBase
          message := "Database operation failed"
          code := "DATABASE_ERROR"
          status := 500
          details := .originalError c }

/-- The user router's message envelope (`MessageResponse` of the types
module, built by the `message` helper). -/
structure MessageResponse where
  message : String
  status : String
  data : Option ErrDetails
  code : Option Nat
deriving Repr, DecidableEq

/-- The `message(msg)` helper with no options: status defaults to
"success", no data, no code. -/
def messageOk (msg : String) : MessageResponse :=
  { message := msg, status := "success", data := none, code := none }

/-- Handler of `POST /api/auth/signup` (user router): on success the
"User created successfully" envelope; a `UserAlreadyExistsError` becomes
an error envelope with its message, code 400 and its details; a
`UserError` keeps its own status; any other `AppError` is reported as
"Failed to create user" with its status. -/
def signupRoute (hash : String → String) (users : List User)
    (email password newId : String) : MessageResponse :=
  match signUp hash users email password newId with
  | .ok _ => messageOk "User created successfully"
  | .error e =>
    match e.cls with
    | .userAlreadyExists =>
      { message := e.message, status := "error", data := some e.details
        code := some 400 }
    | .invalidUserData =>
      { message := e.message, status := "error", data := some e.details
        code := some e.status }
    | .appErrorBase =>
      { message := "Failed to create user", status := "error"
        data := some e.details, code := some e.status }

/-! User-profile handlers (user router, current Hono revision) and the
historical `GET /api/users/:id` revision that leaked the password. -/

/-- The database visible to the user handlers. -/
structure Db where
  users : List User
  todos : List Todo
  posts : List Post
deriving Repr, DecidableEq

/-- The todo projection of the user-profile selects:
`\x7b id, title, completed, categoryId \x7d`. -/
structure TodoProj where
  id : String
  title : String
  completed : Bool
  categoryId : Int
deriving Repr, DecidableEq

/-- The post projection of the user-profile selects:
`\x7b id, title, published \x7d`. -/
structure PostProj where
  id : String
  title : String
  published : Bool
deriving Repr, DecidableEq

/-- The profile shape of `GET /api/users/me` and `GET /api/users/:id`
(current revision): id, email, projected todos and posts — no password
field. -/
structure UserProfile where
  id : String
  email : String
  todos : List TodoProj
  posts : List PostProj
deriving Repr, DecidableEq

/-- One element of the `GET /api/users` list response (current revision):
id, email, and the `_count` relation counts. -/
structure UserListItem where
  id : String
  email : String
  countTodos : Nat
  countPosts : Nat
deriving Repr, DecidableEq

/-- The owned-todo rows of a user. -/
def todosOf (db : Db) (userId : String) : List Todo :=
  db.todos.filter (fun t => decide (t.userId = some userId))

/-- The authored-post rows of a user. -/
def postsOf (db : Db) (userId : String) : List Post :=
  db.posts.filter (fun p => decide (p.authorId = userId))

/-- The select projection of the profile endpoints (current revision). -/
def profileOf (db : Db) (u : User) : UserProfile :=
  { id := u.id
    email := u.email
    todos := (todosOf db u.id).map (fun t => ⟨t.id, t.title, t.completed, t.categoryId⟩)
    posts := (postsOf db u.id).map (fun p => ⟨p.id, p.title, p.published⟩) }

/-- Handler of `GET /api/users` (current revision):
`findMany(\x7b select: \x7b id, email, _count \x7d \x7d)`. -/
def listUsersHandler (db : Db) : List UserListItem :=
  db.users.map (fun u =>
    ⟨u.id, u.email, (todosOf db u.id).length, (postsOf db u.id).length⟩)

/-- Handler of `GET /api/users/me` (current revision): the caller's own
profile projection, or null. -/
def getMeHandler (db : Db) (userId : String) : Option UserProfile :=
  (db.users.find? (fun u => decide (u.id = userId))).map (profileOf db)

/-- Handler of `GET /api/users/:id` (current revision): 403 unless the
requested id is the caller's own, then the same projection as `/me`. -/
def getUserByIdHandler (db : Db) (callerId paramsId : String) :
    Except ErrorResponse (Option UserProfile) :=
  if paramsId ≠ callerId then .error ⟨403, "Access denied"⟩
  else .ok ((db.users.find? (fun u => decide (u.id = paramsId))).map (profileOf db))

/-- The full-row response of the historical `GET /api/users/:id`
revision, whose `include: \x7b todos, posts \x7d` query returns every
scalar field of the user — the stored password among them. -/
structure UserFullRow where
  id : String
  email : String
  password : String
  todos : List Todo
  posts : List Post
deriving Repr, DecidableEq

/-- Handler of the historical `GET /api/users/:id` revision (user router,
`findUnique` with `include`): no ownership check, full row with
password. -/
def getUserByIdHistorical (db : Db) (paramsId : String) : Option UserFullRow :=
  (db.users.find? (fun u => decide (u.id = paramsId))).map (fun u =>
    ⟨u.id, u.email, u.password, todosOf db u.id, postsOf db u.id⟩)

/-- Erase a stored password hash: the observational-equivalence probe for
the no-password-leak property. -/
def scrubUser (u : User) : User :=
  { u with password := "" }

/-- Erase every stored password hash in the database. -/
def scrubDb (db : Db) : Db :=
  { db with users := db.users.map scrubUser }

/-! Rate limiting.  The repository configures three `rateLimiter` tiers
(window, budget, key generator, 429 handler) in its middleware file; the
fixed-window counter itself lives in the external `hono-rate-limiter`
package. -/

/-- A rate-limiter tier configuration: window length in milliseconds and
request budget per window, as passed to `rateLimiter(\x7b windowMs,
limit, ... \x7d)`. -/
structure RateLimitConfig where
  windowMs : Nat
  limit : Nat
deriving Repr, DecidableEq

/-- The auth-endpoint tier: 100 requests per 15 minutes. -/
def authRateLimiterConfig : RateLimitConfig := ⟨15 * 60 * 1000, 100⟩

/-- The authenticated-API tier: 1000 requests per 15 minutes per user. -/
def apiRateLimiterConfig : RateLimitConfig := ⟨15 * 60 * 1000, 1000⟩

/-- The public-endpoint tier: 500 requests per 15 minutes per IP. -/
def publicRateLimiterConfig : RateLimitConfig := ⟨15 * 60 * 1000, 500⟩

/-- JS `a || b` over an optional string: an absent or empty string falls
through to the default. -/
def jsOrString (a : Option String) (b : String) : String :=
  match a with
  | some s => if s.isEmpty then b else s
  | none => b

/-- The IP key generator of the auth and public tiers:
`x-forwarded-for || x-real-ip || 'unknown'`. -/
def ipKey (xForwardedFor xRealIp : Option String) : String :=
  jsOrString xForwardedFor (jsOrString xRealIp "unknown")

/-- The key generator of the authenticated-API tier: `user:<userId>` when
an authenticated user id is in the context (JS-truthy), otherwise the IP
key. -/
def apiRateKey (userId : Option String) (xForwardedFor xRealIp : Option String) :
    String :=
  match userId with
  | some uid => if uid.isEmpty then ipKey xForwardedFor xRealIp else "user:" ++ uid
  | none => ipKey xForwardedFor xRealIp

/-- State of one fixed-window counter: per-key request counts of the
current window and the window's start instant (milliseconds). -/
structure RateState where
  counts : List (String × Nat)
  windowStart : Nat
deriving Repr, DecidableEq

/-- Admission decision: proceed, or the configured 429 handler's
response with its computed `retryAfter`
(`Math.ceil((reset - Date.now()) / 1000)` seconds). -/
inductive RateDecision where
  | allowed
  | rejected (status : Nat) (retryAfter : Nat)
deriving Repr, DecidableEq

/-- The count recorded for a key in the current window. -/
def getCount : List (String × Nat) → String → Nat
  | [], _ => 0
  | p :: rest, key => if p.1 = key then p.2 else getCount rest key

/-- Record one more admitted request for a key. -/
def incCount : List (String × Nat) → String → List (String × Nat)
  | [], key => [(key, 1)]
  | p :: rest, key =>
    if p.1 = key then (p.1, p.2 + 1) :: rest else p :: incCount rest key

/-- Modelled from the spec: the fixed-window counter of the external
`hono-rate-limiter` package (not in the repository), "a fixed window
counter keyed by caller IP ... and by authenticated user id ...,
rejecting with 429 and a computed retry-after once a window's request
budget ... is exhausted".  When the window has elapsed the counts reset
and a new window starts at the current instant; a request over budget is
rejected with the tier's 429 handler and
`retryAfter = ceil((windowReset - now) / 1000)`. -/
def rateStep (cfg : RateLimitConfig) (st : RateState) (now : Nat) (key : String) :
    RateState × RateDecision :=
  let st := if st.windowStart + cfg.windowMs ≤ now then RateState.mk [] now else st
  if getCount st.counts key + 1 > cfg.limit then
    (st, .rejected 429 ((st.windowStart + cfg.windowMs - now + 999) / 1000))
  else
    (⟨incCount st.counts key, st.windowStart⟩, .allowed)

/-- `n` back-to-back requests with the same key, starting from a fresh
window opened at instant `now`. -/
def runKey (cfg : RateLimitConfig) (key : String) (now : Nat) : Nat → RateState
  | 0 => ⟨[], now⟩
  | n + 1 => (rateStep cfg (runKey cfg key now n) now key).1

/-! Concrete sample data used by witnesses and counterexamples. -/

/-- Sample date formatter standing for `formatDate`. -/
def fmtEx : Nat → String := fun n => toString n

/-- Sample password hasher standing for `Bun.password.hash`. -/
def hashEx : String → String := fun p => "hashed:" ++ p

/-- Sample password verifier standing for `Bun.password.verify`. -/
def pverifyEx : String → String → Bool := fun p h => hashEx p = h

/-- Sample token signer standing for `signToken`. -/
def signEx : String → String := fun uid => "tok:" ++ uid

/-- Sample JWT verifier: accepts exactly the token "good", decoding it to
a payload whose id is the string "u1". -/
def verifyEx : String → Except Unit JwtPayload := fun tok =>
  if tok = "good" then .ok ⟨some (.str "u1")⟩ else .error ()

/-- Sample todo table. -/
def exTodos : List Todo :=
  [⟨"t1", "buy milk", false, 1, some "u1", 5, 5⟩,
   ⟨"t2", "write spec", true, 2, some "u2", 6, 7⟩,
   ⟨"t3", "orphan", false, 1, none, 3, 3⟩]

/-- Sample category table. -/
def exCats : List Category := [⟨1, "Default"⟩, ⟨2, "Work"⟩]

/-- Sample user table. -/
def exUsers : List User :=
  [⟨"u1", "a@x.com", hashEx "password1"⟩, ⟨"u2", "b@x.com", hashEx "password2"⟩]

/-- Sample post table. -/
def exPosts : List Post := [⟨"p1", "hello", "body", true, "u1"⟩]

/-- Sample database. -/
def exDb : Db := ⟨exUsers, exTodos, exPosts⟩

/-! Theorems. -/

/-- C1: for GET, PUT and DELETE `/api/todos/:id` by an authenticated
caller, a missing todo yields 404 "Todo not found"; an existing todo whose
`userId` differs from the caller's id yields 403 "Access denied"; only an
existing todo owned by the caller lets the operation proceed — the 404 and
403 cases are decided by disjoint conditions and never conflated. -/
theorem todoById_owner_discipline (todos : List Todo) (callerId paramsId : String)
    (fmt : Nat → String) (patch : TodoPatch) (now : Nat) :
    (findUniqueTodo todos paramsId = none →
      getTodoById todos callerId paramsId fmt = .error ⟨404, "Todo not found"⟩ ∧
      updateTodo todos callerId paramsId patch now fmt = .error ⟨404, "Todo not found"⟩ ∧
      deleteTodo todos callerId paramsId = .error ⟨404, "Todo not found"⟩) ∧
    (∀ t, findUniqueTodo todos paramsId = some t → t.userId ≠ some callerId →
      getTodoById todos callerId paramsId fmt = .error ⟨403, "Access denied"⟩ ∧
      updateTodo todos callerId paramsId patch now fmt = .error ⟨403, "Access denied"⟩ ∧
      deleteTodo todos callerId paramsId = .error ⟨403, "Access denied"⟩) ∧
    (∀ t, findUniqueTodo todos paramsId = some t → t.userId = some callerId →
      getTodoById todos callerId paramsId fmt = .ok (serializeTodo fmt t) ∧
      (∃ r, updateTodo todos callerId paramsId patch now fmt = .ok r) ∧
      (∃ r, deleteTodo todos callerId paramsId = .ok r)) := by
  refine ⟨fun h => ?_, fun t ht hne => ?_, fun t ht hown => ?_⟩
  · simp [getTodoById, updateTodo, deleteTodo, h]
  · simp [getTodoById, updateTodo, deleteTodo, ht, hne]
  · simp [getTodoById, updateTodo, deleteTodo, ht, hown]

/-- Witness for C1: with the sample table, caller "u1" gets 403 on the
todo owned by "u2" and succeeds on its own todo. -/
theorem todoById_owner_discipline_witness :
    getTodoById exTodos "u1" "t2" fmtEx = .error ⟨403, "Access denied"⟩ ∧
    deleteTodo exTodos "u1" "t2" = .error ⟨403, "Access denied"⟩ ∧
    getTodoById exTodos "u1" "t1" fmtEx =
      .ok (serializeTodo fmtEx ⟨"t1", "buy milk", false, 1, some "u1", 5, 5⟩) := by
  have h403 := (todoById_owner_discipline exTodos "u1" "t2" fmtEx {} 0).2.1
    ⟨"t2", "write spec", true, 2, some "u2", 6, 7⟩ (by decide) (by decide)
  have hok := (todoById_owner_discipline exTodos "u1" "t1" fmtEx {} 0).2.2
    ⟨"t1", "buy milk", false, 1, some "u1", 5, 5⟩ (by decide) (by decide)
  exact ⟨h403.1, h403.2.2, hok.1⟩

/-- A non-empty token is JS-truthy. -/
theorem tokenFalsy_some_ne (tok : String) (hne : tok ≠ "") :
    tokenFalsy (some tok) = false := by
  show tok.isEmpty = false
  exact Bool.eq_false_iff.mpr (fun h => hne ((String.isEmpty_iff tok).mp h))

/-- C2: the required auth middleware extracts the credential with the
`Authorization: Bearer` header taking priority over the `token` cookie;
with no credential it answers 401 "Authentication required"; with a
credential that fails verification, or whose payload lacks a string `id`,
it answers 401 "Invalid or expired token"; on success the verified id is
injected into the request context. -/
theorem authMiddleware_contract (verify : String → Except Unit JwtPayload)
    (hdr cookieTok : Option String) :
    (∀ s, hdr = some s → strStartsWith s "Bearer " = true →
      extractToken hdr cookieTok = some (s.drop 7)) ∧
    ((hdr = none ∨ ∃ s, hdr = some s ∧ strStartsWith s "Bearer " = false) →
      extractToken hdr cookieTok = cookieTok) ∧
    (extractToken hdr cookieTok = none →
      authMiddleware verify hdr cookieTok = .unauthorized "Authentication required") ∧
    (∀ tok, extractToken hdr cookieTok = some tok → tok ≠ "" →
      verify tok = .error () →
      authMiddleware verify hdr cookieTok = .unauthorized "Invalid or expired token") ∧
    (∀ tok p, extractToken hdr cookieTok = some tok → tok ≠ "" →
      verify tok = .ok p → (∀ s, p.id ≠ some (.str s)) →
      authMiddleware verify hdr cookieTok = .unauthorized "Invalid or expired token") ∧
    (∀ tok p s, extractToken hdr cookieTok = some tok → tok ≠ "" →
      verify tok = .ok p → p.id = some (.str s) →
      authMiddleware verify hdr cookieTok = .ok s) := by
  refine ⟨fun s hs hb => ?_, fun h => ?_, fun h => ?_,
    fun tok htok hne hv => ?_, fun tok p htok hne hv hid => ?_,
    fun tok p s htok hne hv hid => ?_⟩
  · simp [extractToken, hs, hb]
  · rcases h with h | ⟨s, hs, hb⟩
    · simp [extractToken, h]
    · simp [extractToken, hs, hb]
  · simp [authMiddleware, h, tokenFalsy]
  · simp [authMiddleware, htok, tokenFalsy_some_ne tok hne, hv]
  · rcases hcase : p.id with _ | v
    · simp [authMiddleware, htok, tokenFalsy_some_ne tok hne, hv, hcase]
    · rcases v with s | _
      · exact absurd hcase (hid s)
      · simp [authMiddleware, htok, tokenFalsy_some_ne tok hne, hv, hcase]
  · simp [authMiddleware, htok, tokenFalsy_some_ne tok hne, hv, hid]

/-- Witness for C2: with the sample verifier, a Bearer header holding the
valid token wins over a conflicting cookie and injects "u1"; a cookie
credential with a bad token is rejected as invalid; no credential at all
is rejected as missing. -/
theorem authMiddleware_contract_witness :
    authMiddleware verifyEx (some "Bearer good") (some "bad") = .ok "u1" ∧
    authMiddleware verifyEx none (some "bad") =
      .unauthorized "Invalid or expired token" ∧
    authMiddleware verifyEx none none = .unauthorized "Authentication required" := by
  refine ⟨?_, ?_, ?_⟩
  · exact (authMiddleware_contract verifyEx (some "Bearer good") (some "bad")).2.2.2.2.2
      "good" ⟨some (.str "u1")⟩ "u1" (by decide) (by decide) rfl rfl
  · exact (authMiddleware_contract verifyEx none (some "bad")).2.2.2.1
      "bad" (by decide) (by decide) rfl
  · exact (authMiddleware_contract verifyEx none none).2.2.1 (by decide)

/-- Erasing passwords commutes with the user lookup by id. -/
theorem find?_scrubUser (users : List User) (uid : String) :
    (users.map scrubUser).find? (fun u => decide (u.id = uid)) =
      (users.find? (fun u => decide (u.id = uid))).map scrubUser := by
  induction users with
  | nil => rfl
  | cons u rest ih =>
    by_cases h : u.id = uid
    · simp [scrubUser, List.find?, h]
    · simp only [List.map_cons, List.find?]
      have : decide ((scrubUser u).id = uid) = false := by
        simpa [scrubUser] using h
      simp only [this, decide_eq_false h, ih]

/-- C3 counterexample: the historical `GET /api/users/:id` revision
(user router, `findUnique` with `include`) returns the full user row —
its response for "u1" carries the stored password hash, and erasing
stored passwords changes the response, so the claim that no user-facing
endpoint's projection includes the password fails on that revision. -/
theorem historical_getUser_leaks_password :
    (getUserByIdHistorical exDb "u1").map (fun u => u.password) =
      some (hashEx "password1") ∧
    getUserByIdHistorical (scrubDb exDb) "u1" ≠ getUserByIdHistorical exDb "u1" := by
  constructor
  · rfl
  · decide

/-- C3 amended: the current revision's user endpoints never include the
stored password — the list-users, get-self and get-by-id responses are
unchanged when every stored password hash is erased (the historical
`GET /api/users/:id` revision returned the password and was later
fixed). -/
theorem currentUserEndpoints_password_free (db : Db) (uid callerId paramsId : String) :
    listUsersHandler (scrubDb db) = listUsersHandler db ∧
    getMeHandler (scrubDb db) uid = getMeHandler db uid ∧
    getUserByIdHandler (scrubDb db) callerId paramsId =
      getUserByIdHandler db callerId paramsId := by
  have hfind : ∀ i : String,
      ((scrubDb db).users.find? (fun u => decide (u.id = i))).map (profileOf (scrubDb db)) =
        (db.users.find? (fun u => decide (u.id = i))).map (profileOf db) := by
    intro i
    show ((db.users.map scrubUser).find? (fun u => decide (u.id = i))).map _ = _
    rw [find?_scrubUser, Option.map_map]
    congr 1
  refine ⟨?_, hfind uid, ?_⟩
  · show (db.users.map scrubUser).map _ = _
    rw [List.map_map]
    rfl
  · unfold getUserByIdHandler
    by_cases h : paramsId ≠ callerId
    · simp [h]
    · simp only [h, if_false]
      rw [hfind paramsId]

/-- C4: a signup whose email already belongs to a stored user hits the
persistence layer's P2002 unique-constraint violation, which `signUp`
translates into the typed `UserAlreadyExistsError` — so the route answers
with message "User with this email already exists", code 400 and details
carrying the offending email, never with a raw database error; a first
signup with a fresh email succeeds. -/
theorem signup_duplicate_email (hash : String → String) (users : List User)
    (email password newId : String) (hemail : email ≠ "")
    (hat : strContains email '@' = true) (hpw : password ≠ "") :
    ((∃ u ∈ users, u.email = email) →
      prismaUserCreate users email (hash password) newId =
        .error (.knownRequest "P2002") ∧
      signUp hash users email password newId =
        .error (UserAlreadyExistsError email) ∧
      signupRoute hash users email password newId =
        { message := "User with this email already exists", status := "error"
          data := some (.emailDetail email), code := some 400 }) ∧
    ((∀ u ∈ users, u.email ≠ email) →
      signupRoute hash users email password newId =
        messageOk "User created successfully") := by
  constructor
  · intro hdup
    have hany : users.any (fun u => decide (u.email = email)) = true := by
      rcases hdup with ⟨u, hu, he⟩
      exact List.any_eq_true.mpr ⟨u, hu, by simp [he]⟩
    have hcreate : prismaUserCreate users email (hash password) newId =
        .error (.knownRequest "P2002") := by
      simp [prismaUserCreate, hany]
    have hsign : signUp hash users email password newId =
        .error (UserAlreadyExistsError email) := by
      simp [signUp, hemail, hpw, hat, hcreate]
    refine ⟨hcreate, hsign, ?_⟩
    simp [signupRoute, hsign, UserAlreadyExistsError]
  · intro hfresh
    have hany : users.any (fun u => decide (u.email = email)) = false := by
      simp only [List.any_eq_false]
      intro u hu
      simp [hfresh u hu]
    have hcreate : prismaUserCreate users email (hash password) newId =
        .ok (users ++ [⟨newId, email, hash password⟩], ⟨newId, email, hash password⟩) := by
      simp [prismaUserCreate, hany]
    simp [signupRoute, signUp, hemail, hpw, hat, hcreate, messageOk]

/-- Witness for C4: with the sample table, signing up "a@x.com" again is
rejected with the typed already-exists error, and a fresh "c@x.com"
signup succeeds. -/
theorem signup_duplicate_email_witness :
    signupRoute hashEx exUsers "a@x.com" "password9" "u9" =
      { message := "User with this email already exists", status := "error"
        data := some (.emailDetail "a@x.com"), code := some 400 } ∧
    signupRoute hashEx exUsers "c@x.com" "password9" "u9" =
      messageOk "User created successfully" := by
  constructor
  · exact ((signup_duplicate_email hashEx exUsers "a@x.com" "password9" "u9"
      (by decide) (by decide) (by decide)).1
      ⟨⟨"u1", "a@x.com", hashEx "password1"⟩, by decide, rfl⟩).2.2
  · exact (signup_duplicate_email hashEx exUsers "c@x.com" "password9" "u9"
      (by decide) (by decide) (by decide)).2 (by decide)

/-- C5: login answers 400 "User not found" when no account exists for the
email, 400 "Invalid password" when the password fails verification
against the stored hash, and on success returns a token signed over the
user id together with the userId and email, setting that token as an
HttpOnly SameSite=Lax cookie with 7-day max age on path "/". -/
theorem login_contract (users : List User) (pverify : String → String → Bool)
    (sign : String → String) (email password : String) :
    (findUserByEmail users email = none →
      login users pverify sign email password = .error ⟨400, "User not found"⟩) ∧
    (∀ u, findUserByEmail users email = some u →
      pverify password u.password = false →
      login users pverify sign email password = .error ⟨400, "Invalid password"⟩) ∧
    (∀ u, findUserByEmail users email = some u →
      pverify password u.password = true →
      login users pverify sign email password =
        .ok { message := "Login successful", status := "success"
              token := sign u.id, userId := u.id, email := u.email
              cookie := { name := "token", value := sign u.id, httpOnly := true
                          maxAge := 7 * 24 * 60 * 60, path := "/"
                          sameSite := "Lax" } }) := by
  refine ⟨fun h => ?_, fun u hu hbad => ?_, fun u hu hok => ?_⟩
  · simp [login, h]
  · simp [login, hu, hbad]
  · simp [login, hu, hok]

/-- Witness for C5: with the sample tables, a wrong password for
"a@x.com" is rejected as "Invalid password" and the right one yields the
token signed over "u1" plus the cookie settings. -/
theorem login_contract_witness :
    login exUsers pverifyEx signEx "a@x.com" "wrong-password" =
      .error ⟨400, "Invalid password"⟩ ∧
    login exUsers pverifyEx signEx "a@x.com" "password1" =
      .ok { message := "Login successful", status := "success"
            token := signEx "u1", userId := "u1", email := "a@x.com"
            cookie := { name := "token", value := signEx "u1", httpOnly := true
                        maxAge := 7 * 24 * 60 * 60, path := "/"
                        sameSite := "Lax" } } := by
  constructor
  · exact (login_contract exUsers pverifyEx signEx "a@x.com" "wrong-password").2.1
      ⟨"u1", "a@x.com", hashEx "password1"⟩ (by decide) (by decide)
  · exact (login_contract exUsers pverifyEx signEx "a@x.com" "password1").2.2
      ⟨"u1", "a@x.com", hashEx "password1"⟩ (by decide) (by decide)

/-- C6: for authenticated todo creation, `completed` defaults to false
when omitted; an omitted `categoryId` falls back to the first category
found in storage, and with no category at all the request fails with 400;
the created todo's `userId` always equals the authenticated caller's id,
whatever `userId` value the client supplied. -/
theorem createTodo_defaults (todos : List Todo) (categories : List Category)
    (callerId : String) (body : CreateTodoBody) (newId : String) (now : Nat)
    (fmt : Nat → String) :
    (∀ ts t resp,
      createTodo todos categories callerId body newId now fmt = .ok (ts, t, resp) →
      t.userId = some callerId ∧
      (body.completed = none → t.completed = false) ∧
      (body.categoryId = none →
        ∃ c, categories.head? = some c ∧ t.categoryId = c.id)) ∧
    (body.categoryId = none → categories = [] →
      createTodo todos categories callerId body newId now fmt =
        .error ⟨400, "No categories available. Please create a category first."⟩) := by
  constructor
  · intro ts t resp hok
    rcases hch : chosenCategoryId categories body.categoryId with _ | cid
    · simp [createTodo, hch] at hok
    · simp [createTodo, hch] at hok
      obtain ⟨hts, ht, hresp⟩ := hok
      subst ht
      refine ⟨rfl, fun hc => by simp [hc], fun hbc => ?_⟩
      rw [hbc] at hch
      simp only [chosenCategoryId] at hch
      rcases Option.map_eq_some'.mp hch with ⟨cat, hcat, hcid⟩
      exact ⟨cat, hcat, by simp [hcid]⟩
  · intro hbc hcats
    simp [createTodo, chosenCategoryId, hbc, hcats]

/-- Witness for C6: creating "Buy milk" with neither `completed` nor
`categoryId` (and a client-supplied `userId` of "u2") yields a todo owned
by the caller "u1", not completed, in the first category of the sample
table. -/
theorem createTodo_defaults_witness :
    (⟨"t9", "Buy milk", false, 1, some "u1", 10, 10⟩ : Todo).userId = some "u1" ∧
    (⟨"t9", "Buy milk", false, 1, some "u1", 10, 10⟩ : Todo).completed = false ∧
    (⟨"t9", "Buy milk", false, 1, some "u1", 10, 10⟩ : Todo).categoryId =
      (⟨1, "Default"⟩ : Category).id := by
  have h := (createTodo_defaults exTodos exCats "u1"
    ⟨"Buy milk", none, none, some "u2"⟩ "t9" 10 fmtEx).1
    (exTodos ++ [(⟨"t9", "Buy milk", false, 1, some "u1", 10, 10⟩ : Todo)])
    ⟨"t9", "Buy milk", false, 1, some "u1", 10, 10⟩
    (serializeTodo fmtEx ⟨"t9", "Buy milk", false, 1, some "u1", 10, 10⟩) rfl
  obtain ⟨h1, h2, h3⟩ := h
  obtain ⟨c, hc, hcid⟩ := h3 rfl
  have hc1 : c = ⟨1, "Default"⟩ := by
    have := hc
    simp only [exCats, List.head?] at this
    exact (Option.some.injEq _ _ ▸ this).symm
  exact ⟨h1, h2 rfl, by rw [hcid, hc1]⟩

/-- C7: a successful `PUT /api/todos/:id` replaces the loaded todo by its
patched version: only the patched subset of title/completed/categoryId
plus the auto-refreshed `updatedAt` may differ; `userId`, `id` and
`createdAt` never change, and an empty patch leaves every field unchanged
except `updatedAt`. -/
theorem updateTodo_frame (todos : List Todo) (callerId paramsId : String)
    (patch : TodoPatch) (now : Nat) (fmt : Nat → String) (old : Todo)
    (hfound : findUniqueTodo todos paramsId = some old)
    (hown : old.userId = some callerId) :
    updateTodo todos callerId paramsId patch now fmt =
      .ok (todos.map (fun t => if t.id = paramsId then applyPatch now patch old else t),
        serializeTodo fmt (applyPatch now patch old)) ∧
    (applyPatch now patch old).userId = old.userId ∧
    (applyPatch now patch old).id = old.id ∧
    (applyPatch now patch old).createdAt = old.createdAt ∧
    (patch.title = none → (applyPatch now patch old).title = old.title) ∧
    (patch.completed = none → (applyPatch now patch old).completed = old.completed) ∧
    (patch.categoryId = none →
      (applyPatch now patch old).categoryId = old.categoryId) ∧
    (patch = {} → applyPatch now patch old = { old with updatedAt := now }) := by
  refine ⟨by simp [updateTodo, hfound, hown], rfl, rfl, rfl,
    fun h => by simp [applyPatch, h], fun h => by simp [applyPatch, h],
    fun h => by simp [applyPatch, h], fun h => by simp [applyPatch, h]⟩

/-- Witness for C7: updating the sample todo "t1" as its owner with an
empty patch at instant 99 refreshes only `updatedAt`. -/
theorem updateTodo_frame_witness :
    updateTodo exTodos "u1" "t1" {} 99 fmtEx =
      .ok (exTodos.map (fun t => if t.id = "t1" then
          applyPatch 99 {} ⟨"t1", "buy milk", false, 1, some "u1", 5, 5⟩ else t),
        serializeTodo fmtEx
          (applyPatch 99 {} ⟨"t1", "buy milk", false, 1, some "u1", 5, 5⟩)) ∧
    applyPatch 99 {} (⟨"t1", "buy milk", false, 1, some "u1", 5, 5⟩ : Todo) =
      ⟨"t1", "buy milk", false, 1, some "u1", 5, 99⟩ := by
  have h := updateTodo_frame exTodos "u1" "t1" {} 99 fmtEx
    ⟨"t1", "buy milk", false, 1, some "u1", 5, 5⟩ (by decide) rfl
  exact ⟨h.1, h.2.2.2.2.2.2.2 rfl⟩

/-- C8 counterexample: `GET /api/todos` with the query `categoryId=0` is
passed through the JS-truthiness test `categoryId ? categoryId :
undefined`, which drops the filter — caller "u1" of the sample table gets
back its todo with categoryId 1, not 0, refuting the unrestricted claim
that every returned todo carries the supplied categoryId. -/
theorem listTodos_categoryId_zero_cex :
    (listTodos exTodos "u1" (some 0) fmtEx).map (fun r => r.categoryId) = [1] ∧
    (1 : Int) ≠ 0 := by
  constructor
  · rfl
  · decide

/-- C8 amended: every todo returned by `GET /api/todos` belongs to the
caller, and when a nonzero `categoryId` query parameter is supplied every
returned todo additionally has that categoryId (a supplied `categoryId`
of 0 is JS-falsy and is treated as an absent filter). -/
theorem listTodos_owner_and_filter (todos : List Todo) (callerId : String)
    (q : Option Int) (fmt : Nat → String) :
    (∀ r ∈ listTodos todos callerId q fmt, r.userId = callerId) ∧
    (∀ c, q = some c → c ≠ 0 →
      ∀ r ∈ listTodos todos callerId q fmt, r.categoryId = c) := by
  constructor
  · intro r hr
    simp only [listTodos, List.mem_map, List.mem_filter] at hr
    obtain ⟨t, ⟨-, hcond⟩, hser⟩ := hr
    have hu : t.userId = some callerId := by
      have := (Bool.and_eq_true _ _).mp hcond
      exact of_decide_eq_true this.1
    simp [← hser, serializeTodo, hu]
  · intro c hq hc r hr
    subst hq
    simp only [listTodos, List.mem_map, List.mem_filter] at hr
    obtain ⟨t, ⟨-, hcond⟩, hser⟩ := hr
    have := (Bool.and_eq_true _ _).mp hcond
    have hcat : t.categoryId = c := by
      have h2 := this.2
      simp only [effectiveCategoryFilter, if_neg hc] at h2
      exact of_decide_eq_true h2
    simp [← hser, serializeTodo, hcat]

/-- Witness for C8 (amended): with the nonzero filter `categoryId=1`,
caller "u1" of the sample table gets only its own categoryId-1 todo. -/
theorem listTodos_owner_and_filter_witness :
    (serializeTodo fmtEx ⟨"t1", "buy milk", false, 1, some "u1", 5, 5⟩).userId =
      "u1" ∧
    (serializeTodo fmtEx ⟨"t1", "buy milk", false, 1, some "u1", 5, 5⟩).categoryId =
      1 := by
  have hmem : serializeTodo fmtEx ⟨"t1", "buy milk", false, 1, some "u1", 5, 5⟩ ∈
      listTodos exTodos "u1" (some 1) fmtEx := by
    simp [listTodos, exTodos, effectiveCategoryFilter, serializeTodo]
  exact ⟨(listTodos_owner_and_filter exTodos "u1" (some 1) fmtEx).1 _ hmem,
    (listTodos_owner_and_filter exTodos "u1" (some 1) fmtEx).2 1 rfl (by decide) _ hmem⟩

/-- Incrementing a key's counter raises exactly that key's count by
one. -/
theorem getCount_incCount_self (counts : List (String × Nat)) (k : String) :
    getCount (incCount counts k) k = getCount counts k + 1 := by
  induction counts with
  | nil => simp [incCount, getCount]
  | cons p rest ih =>
    by_cases h : p.1 = k
    · simp [incCount, getCount, h]
    · simp [incCount, getCount, h, ih]

/-- Incrementing a key's counter leaves every other key's count
unchanged. -/
theorem getCount_incCount_other (counts : List (String × Nat)) (k k' : String)
    (hne : k' ≠ k) :
    getCount (incCount counts k) k' = getCount counts k' := by
  induction counts with
  | nil =>
    have hk : ¬ k = k' := fun hh => hne hh.symm
    simp [incCount, getCount, hk]
  | cons p rest ih =>
    by_cases h : p.1 = k
    · have hk : ¬ k = k' := fun hh => hne hh.symm
      simp [incCount, getCount, h, hk]
    · simp [incCount, getCount, h, ih]

/-- One admission step inside a window that has not elapsed. -/
theorem rateStep_no_roll (cfg : RateLimitConfig) (st : RateState) (now : Nat)
    (h : ¬ st.windowStart + cfg.windowMs ≤ now) (key : String) :
    rateStep cfg st now key =
      if getCount st.counts key + 1 > cfg.limit then
        (st, .rejected 429 ((st.windowStart + cfg.windowMs - now + 999) / 1000))
      else (⟨incCount st.counts key, st.windowStart⟩, .allowed) := by
  simp [rateStep, h]

/-- After `n ≤ limit` same-key requests in a fresh window, the window has
not rolled, the key's count is `n`, and every other key's count is 0. -/
theorem runKey_state (cfg : RateLimitConfig) (k : String) (now : Nat)
    (hw : 0 < cfg.windowMs) :
    ∀ n, n ≤ cfg.limit →
      (runKey cfg k now n).windowStart = now ∧
      getCount (runKey cfg k now n).counts k = n ∧
      (∀ k', k' ≠ k → getCount (runKey cfg k now n).counts k' = 0) := by
  intro n
  induction n with
  | zero => exact fun _ => ⟨rfl, rfl, fun k' _ => rfl⟩
  | succ m ih =>
    intro hle
    obtain ⟨hws, hcnt, hother⟩ := ih (Nat.le_of_succ_le hle)
    have hroll : ¬ (runKey cfg k now m).windowStart + cfg.windowMs ≤ now := by
      rw [hws]; omega
    have hstep := rateStep_no_roll cfg (runKey cfg k now m) now hroll k
    have hno : ¬ getCount (runKey cfg k now m).counts k + 1 > cfg.limit := by
      rw [hcnt]; omega
    rw [if_neg hno] at hstep
    have hrun : runKey cfg k now (m + 1) =
        ⟨incCount (runKey cfg k now m).counts k, (runKey cfg k now m).windowStart⟩ := by
      show (rateStep cfg (runKey cfg k now m) now k).1 = _
      rw [hstep]
    rw [hrun]
    refine ⟨hws, ?_, fun k' hk' => ?_⟩
    · show getCount (incCount (runKey cfg k now m).counts k) k = m + 1
      rw [getCount_incCount_self, hcnt]
    · show getCount (incCount (runKey cfg k now m).counts k) k' = 0
      rw [getCount_incCount_other _ _ _ hk', hother k' hk']

/-- C9: modelled from the spec (the fixed-window counter of the external
`hono-rate-limiter` package): under any tier configuration with a
positive window and budget, the first `limit` requests of a key in a
fresh window are admitted, the next request with that key is rejected
with 429 and a positive computed `retryAfter`, while a request under a
different key in the same window is unaffected; the three tiers of the
middleware file budget 100 (auth), 500 (public) and 1000 (per-user API)
requests per 15-minute window, keyed by caller IP
(`x-forwarded-for || x-real-ip || 'unknown'`) except the API tier, which
keys `user:<id>` on the authenticated user id. -/
theorem rateLimiter_window_exhaustion (cfg : RateLimitConfig) (k k' : String)
    (now : Nat) (hw : 0 < cfg.windowMs) (hlim : 0 < cfg.limit) (hne : k' ≠ k) :
    (∀ m, m < cfg.limit →
      (rateStep cfg (runKey cfg k now m) now k).2 = .allowed) ∧
    (rateStep cfg (runKey cfg k now cfg.limit) now k).2 =
      .rejected 429 ((cfg.windowMs + 999) / 1000) ∧
    0 < (cfg.windowMs + 999) / 1000 ∧
    (rateStep cfg (runKey cfg k now cfg.limit) now k').2 = .allowed ∧
    authRateLimiterConfig = ⟨15 * 60 * 1000, 100⟩ ∧
    publicRateLimiterConfig = ⟨15 * 60 * 1000, 500⟩ ∧
    apiRateLimiterConfig = ⟨15 * 60 * 1000, 1000⟩ ∧
    (∀ uid xff xri, uid ≠ "" → apiRateKey (some uid) xff xri = "user:" ++ uid) ∧
    (∀ xff xri, apiRateKey none xff xri = ipKey xff xri) := by
  have hstate := runKey_state cfg k now hw
  refine ⟨fun m hm => ?_, ?_, ?_, ?_, rfl, rfl, rfl, fun uid xff xri hu => ?_, fun xff xri => rfl⟩
  · obtain ⟨hws, hcnt, -⟩ := hstate m (Nat.le_of_lt hm)
    have hroll : ¬ (runKey cfg k now m).windowStart + cfg.windowMs ≤ now := by
      rw [hws]; omega
    have hstep := rateStep_no_roll cfg (runKey cfg k now m) now hroll k
    have hno : ¬ getCount (runKey cfg k now m).counts k + 1 > cfg.limit := by
      rw [hcnt]; omega
    rw [if_neg hno] at hstep
    rw [hstep]
  · obtain ⟨hws, hcnt, -⟩ := hstate cfg.limit le_rfl
    have hroll : ¬ (runKey cfg k now cfg.limit).windowStart + cfg.windowMs ≤ now := by
      rw [hws]; omega
    have hstep := rateStep_no_roll cfg (runKey cfg k now cfg.limit) now hroll k
    have hyes : getCount (runKey cfg k now cfg.limit).counts k + 1 > cfg.limit := by
      rw [hcnt]; omega
    rw [if_pos hyes] at hstep
    have harith : (runKey cfg k now cfg.limit).windowStart + cfg.windowMs - now + 999
        = cfg.windowMs + 999 := by rw [hws]; omega
    rw [hstep, harith]
  · exact Nat.div_pos (by omega) (by omega)
  · obtain ⟨hws, -, hother⟩ := hstate cfg.limit le_rfl
    have hroll : ¬ (runKey cfg k now cfg.limit).windowStart + cfg.windowMs ≤ now := by
      rw [hws]; omega
    have hstep := rateStep_no_roll cfg (runKey cfg k now cfg.limit) now hroll k'
    have hno : ¬ getCount (runKey cfg k now cfg.limit).counts k' + 1 > cfg.limit := by
      rw [hother k' hne]; omega
    rw [if_neg hno] at hstep
    rw [hstep]
  · have : uid.isEmpty = false :=
      Bool.eq_false_iff.mpr (fun h => hu ((String.isEmpty_iff uid).mp h))
    simp [apiRateKey, this]

/-- Witness for C9: with a 2-request budget over a 1000 ms window, two
requests by key "a" pass, the third is rejected with a positive
`retryAfter`, and key "b" is still admitted. -/
theorem rateLimiter_window_exhaustion_witness :
    (rateStep ⟨1000, 2⟩ (runKey ⟨1000, 2⟩ "a" 0 2) 0 "a").2 =
      .rejected 429 ((1000 + 999) / 1000) ∧
    0 < (1000 + 999) / 1000 ∧
    (rateStep ⟨1000, 2⟩ (runKey ⟨1000, 2⟩ "a" 0 2) 0 "b").2 = .allowed := by
  have h := rateLimiter_window_exhaustion ⟨1000, 2⟩ "a" "b" 0
    (by decide) (by decide) (by decide)
  exact ⟨h.2.1, h.2.2.1, h.2.2.2.1⟩

/-- C10: every todo reaching a response of the list, get-by-id, create or
update handlers passes through the shared response mapping, which
serializes a stored null `userId` as the empty string — so the response
`userId` field is always a string. -/
theorem todoResponses_userId_string (fmt : Nat → String) (todos : List Todo)
    (categories : List Category) (callerId paramsId newId : String)
    (q : Option Int) (body : CreateTodoBody) (patch : TodoPatch) (now : Nat) :
    (∀ t : Todo, (serializeTodo fmt t).userId = t.userId.getD "") ∧
    (∀ t : Todo, t.userId = none → (serializeTodo fmt t).userId = "") ∧
    (∀ r ∈ listTodos todos callerId q fmt, ∃ t ∈ todos, r = serializeTodo fmt t) ∧
    (∀ r, getTodoById todos callerId paramsId fmt = .ok r →
      ∃ t ∈ todos, r = serializeTodo fmt t) ∧
    (∀ ts t resp, createTodo todos categories callerId body newId now fmt =
      .ok (ts, t, resp) → resp = serializeTodo fmt t) ∧
    (∀ ts resp, updateTodo todos callerId paramsId patch now fmt =
      .ok (ts, resp) → ∃ t, resp = serializeTodo fmt t) := by
  refine ⟨fun t => rfl, fun t h => by simp [serializeTodo, h], ?_, ?_, ?_, ?_⟩
  · intro r hr
    simp only [listTodos, List.mem_map, List.mem_filter] at hr
    obtain ⟨t, ⟨ht, -⟩, hser⟩ := hr
    exact ⟨t, ht, hser.symm⟩
  · intro r hok
    rcases hf : findUniqueTodo todos paramsId with _ | t
    · simp [getTodoById, hf] at hok
    · by_cases h : t.userId = some callerId
      · simp [getTodoById, hf, h] at hok
        exact ⟨t, List.mem_of_find?_eq_some hf, hok.symm⟩
      · simp [getTodoById, hf, h] at hok
  · intro ts t resp hok
    rcases hch : chosenCategoryId categories body.categoryId with _ | cid
    · simp [createTodo, hch] at hok
    · simp [createTodo, hch] at hok
      obtain ⟨-, ht, hresp⟩ := hok
      rw [← ht, ← hresp]
  · intro ts resp hok
    rcases hf : findUniqueTodo todos paramsId with _ | ex
    · simp [updateTodo, hf] at hok
    · by_cases h : ex.userId = some callerId
      · simp [updateTodo, hf, h] at hok
        exact ⟨applyPatch now patch ex, hok.2.symm⟩
      · simp [updateTodo, hf, h] at hok

/-- Witness for C10: the sample todo "t3", stored with a null owner, is
serialized with `userId` equal to the empty string. -/
theorem todoResponses_userId_string_witness :
    (serializeTodo fmtEx ⟨"t3", "orphan", false, 1, none, 3, 3⟩).userId = "" :=
  (todoResponses_userId_string fmtEx exTodos exCats "u1" "t1" "t9" none
    ⟨"x", none, none, none⟩ {} 0).2.1 ⟨"t3", "orphan", false, 1, none, 3, 3⟩ rfl

end TrainingServices
